import Mathlib

/-!
Shallow embedding of `src/main.py` (raven_bot): a per-guild matchmaking
lobby bot.  Configuration rows (`GuildConfig`) live in a relational store
and a process-wide cache; lobby state (`LobbyState`) lives in a
process-wide in-memory registry with lazy time-based cleanup.

Timestamps are modelled as natural numbers (seconds); `datetime.now()`
becomes an explicit `now` argument.  Registries (`GuildConfig.registry`,
`LobbyState.registry`) become functions `Nat → Option _`.  A Python
`KeyError` / `TypeError` crash path is modelled by an `Option` result
(`none` = the handler raised before completing).  Each command handler
returns the updated state together with the list of messages it sent.
-/

namespace RavenBot

/-- Seconds in `timedelta(days=1)` (lobby lifetime, `main.py` line 133). -/
def daySeconds : Nat := 86400

/-- Seconds in `timedelta(hours=2)` (queue-entry lifetime, line 170). -/
def twoHours : Nat := 7200

/-- One queued member (`QueueJoin` dataclass, lines 112-115). -/
structure QueueJoin where
  member_id : Nat
  end_time : Nat
deriving DecidableEq, Repr

/-- One guild's configuration row (`GuildConfig` ORM model, lines 34-41).
`default_queue_size` is a Python `int` column, hence `Int`. -/
structure GuildConfig where
  guild_id : Nat
  host_role_id : Option Nat
  queue_channel : Option Nat
  default_queue_size : Option Int
deriving DecidableEq, Repr

/-- A fresh row `GuildConfig(guild_id=guild_id)` (line 66): every other
column is NULL. -/
def GuildConfig.mkNew (g : Nat) : GuildConfig :=
  { guild_id := g, host_role_id := none, queue_channel := none,
    default_queue_size := none }

/-- The in-memory lobby (`LobbyState` dataclass, lines 118-134). -/
structure LobbyState where
  guild_id : Nat
  queue_size : Int
  start_time : Nat
  end_time : Nat
  queue : List QueueJoin
deriving DecidableEq, Repr

/-- A map used for the two process-wide registries. -/
def RMap (α : Type) : Type := Nat → Option α

/-- `registry[k] = v`. -/
def RMap.insert (m : RMap α) (k : Nat) (v : α) : RMap α :=
  fun k2 => if k2 = k then some v else m k2

/-- `registry.pop(k)`. -/
def RMap.erase (m : RMap α) (k : Nat) : RMap α :=
  fun k2 => if k2 = k then none else m k2

/-- The empty registry. -/
def RMap.empty : RMap α := fun _ => none

/-- Python truthiness fallback `x or 8` on an optional int column
(line 130): `None` and `0` are falsy, every other int is truthy. -/
def pyOrInt (o : Option Int) (d : Int) : Int :=
  match o with
  | none => d
  | some n => if n = 0 then d else n

/-- `GuildConfig.channel_check` (lines 43-46).  The unguarded
`cls.registry[ctx.guild.id]` lookup raises `KeyError` when the guild has
no configuration record; that crash path is `none`.  Python's
`None == channel_id` is `False`, so an unset `queue_channel` never
equals the invoking channel. -/
def GuildConfig.channel_check (cregs : RMap GuildConfig) (g ch : Nat) :
    Option Bool :=
  match cregs g with
  | none => none
  | some cfg => some (decide (cfg.queue_channel = some ch))

/-- `GuildConfig.host_check` (lines 48-52): passes when no host role is
configured or the author holds the configured role.  Same unguarded
registry lookup as `channel_check`. -/
def GuildConfig.host_check (cregs : RMap GuildConfig) (g : Nat)
    (authorRoles : List Nat) : Option Bool :=
  match cregs g with
  | none => none
  | some cfg =>
    some (match cfg.host_role_id with
          | none => true
          | some r => authorRoles.contains r)

/-- `LobbyState.clean_up` (lines 136-141): returns `true` when the whole
lobby has expired (`now > end_time`); otherwise filters the queue in
place, keeping entries with `now < qj.end_time`, and returns `false`.
The mutated state is returned alongside the flag. -/
def LobbyState.clean_up (now : Nat) (s : LobbyState) : Bool × LobbyState :=
  if s.end_time < now then (true, s)
  else (false, { s with queue := s.queue.filter (fun qj => now < qj.end_time) })

/-- `LobbyState.lobby_exists` (lines 143-148): lazy cleanup, then
membership.  Returns the answer together with the updated registry
(Python mutates `cls.registry` in place). -/
def LobbyState.lobby_exists (now : Nat) (lregs : RMap LobbyState) (g : Nat) :
    Bool × RMap LobbyState :=
  match lregs g with
  | none => (false, lregs)
  | some st =>
    let r := st.clean_up now
    if r.1 then (false, lregs.erase g)
    else (true, lregs.insert g r.2)

/-- `LobbyState.__init__` (lines 128-134): reads the guild's config row
(unguarded lookup, `none` = `KeyError`), snapshots
`default_queue_size or 8`, and opens a 24-hour window. -/
def LobbyState.init (cregs : RMap GuildConfig) (g : Nat) (now : Nat) :
    Option LobbyState :=
  match cregs g with
  | none => none
  | some cfg =>
    some { guild_id := g,
           queue_size := pyOrInt cfg.default_queue_size 8,
           start_time := now,
           end_time := now + daySeconds,
           queue := [] }

/-- Invoking context: guild, channel, author and the author's roles. -/
structure Ctx where
  guild_id : Nat
  channel_id : Nat
  author_id : Nat
  author_roles : List Nat
deriving Repr

/-- `f"<@{qj.member_id}>"` (line 185). -/
def mentionOf (qj : QueueJoin) : String :=
  "<@" ++ toString qj.member_id ++ ">"

/-- `", ".join(f"<@{qj.member_id}>" for qj in queue)` (line 185): the
mention of every queued member, in queue order. -/
def mentionList (q : List QueueJoin) : String :=
  String.intercalate ", " (q.map mentionOf)

/-- `next(qj for qj in queue if qj.member_id == m)` followed by
`qj.end_time = t` (lines 172-175): refresh the first entry of `m`
in place, leaving everything else untouched. -/
def refreshFirst (q : List QueueJoin) (m : Nat) (t : Nat) : List QueueJoin :=
  match q with
  | [] => []
  | qj :: rest =>
    if qj.member_id = m then { qj with end_time := t } :: rest
    else qj :: refreshFirst rest m t

/-- The `host` command (lines 155-161): checks run in declaration order
(`channel_check`, `host_check`, `lobby_not_exists`); a failing check
drops the command with no reply, a raising check is `none`.  On success
a fresh `LobbyState` is inserted. -/
def hostCmd (cregs : RMap GuildConfig) (now : Nat) (ctx : Ctx)
    (lregs : RMap LobbyState) : Option (RMap LobbyState × List String) :=
  match GuildConfig.channel_check cregs ctx.guild_id ctx.channel_id with
  | none => none
  | some false => some (lregs, [])
  | some true =>
    match GuildConfig.host_check cregs ctx.guild_id ctx.author_roles with
    | none => none
    | some false => some (lregs, [])
    | some true =>
      let r := LobbyState.lobby_exists now lregs ctx.guild_id
      if r.1 then some (r.2, [])
      else
        match LobbyState.init cregs ctx.guild_id now with
        | none => none
        | some st => some (r.2.insert ctx.guild_id st, ["Lobby created!"])

/-- The `join` command (lines 164-188): after `channel_check` and
`lobby_exists`, a member already queued gets its expiry refreshed and an
"already queued" reply; otherwise a fresh `QueueJoin` is appended and,
when the queue length now equals `queue_size`, the full-lobby
announcement is sent and the lobby is popped from the registry. -/
def joinCmd (cregs : RMap GuildConfig) (now : Nat) (ctx : Ctx)
    (lregs : RMap LobbyState) : Option (RMap LobbyState × List String) :=
  match GuildConfig.channel_check cregs ctx.guild_id ctx.channel_id with
  | none => none
  | some false => some (lregs, [])
  | some true =>
    let r := LobbyState.lobby_exists now lregs ctx.guild_id
    if !r.1 then some (r.2, [])
    else
      match r.2 ctx.guild_id with
      | none => none
      | some st =>
        let endT := now + twoHours
        match st.queue.find? (fun qj => qj.member_id == ctx.author_id) with
        | some _ =>
          some (r.2.insert ctx.guild_id
                  { st with queue := refreshFirst st.queue ctx.author_id endT },
                ["You are already part of the queue!"])
        | none =>
          let q2 := st.queue ++ [{ member_id := ctx.author_id, end_time := endT }]
          let st2 := { st with queue := q2 }
          if (q2.length : Int) = st.queue_size then
            some ((r.2.insert ctx.guild_id st2).erase ctx.guild_id,
                  ["You have successfully joined the queue!",
                   mentionList q2 ++ " Full lobby. Start game!"])
          else
            some (r.2.insert ctx.guild_id st2,
                  ["You have successfully joined the queue!"])

/-- The `leave` command (lines 190-197): removes every queue entry of
the author (no-op when absent) and always replies the same message. -/
def leaveCmd (cregs : RMap GuildConfig) (now : Nat) (ctx : Ctx)
    (lregs : RMap LobbyState) : Option (RMap LobbyState × List String) :=
  match GuildConfig.channel_check cregs ctx.guild_id ctx.channel_id with
  | none => none
  | some false => some (lregs, [])
  | some true =>
    let r := LobbyState.lobby_exists now lregs ctx.guild_id
    if !r.1 then some (r.2, [])
    else
      match r.2 ctx.guild_id with
      | none => none
      | some st =>
        some (r.2.insert ctx.guild_id
                { st with
                  queue := st.queue.filter
                    (fun qj => !(qj.member_id == ctx.author_id)) },
              ["You are no longer part of the queue!"])

/-- The `query` command (lines 199-205): reports the queue length. -/
def queryCmd (cregs : RMap GuildConfig) (now : Nat) (ctx : Ctx)
    (lregs : RMap LobbyState) : Option (RMap LobbyState × List String) :=
  match GuildConfig.channel_check cregs ctx.guild_id ctx.channel_id with
  | none => none
  | some false => some (lregs, [])
  | some true =>
    let r := LobbyState.lobby_exists now lregs ctx.guild_id
    if !r.1 then some (r.2, [])
    else
      match r.2 ctx.guild_id with
      | none => none
      | some st =>
        some (r.2,
              ["Currently there are " ++ toString st.queue.length ++
               " players in the lobby."])

/-- Persisted rows plus the process-wide cache (`GuildConfig.registry`). -/
structure ConfigState where
  store : RMap GuildConfig
  cache : RMap GuildConfig

/-- The `guild_config` context manager (lines 62-71).  A guild absent
from the cache gets a fresh row `session.add`ed; `commit` then INSERTs
it, and when the store already holds a row with that `guild_id` the
primary-key constraint makes `commit` raise `IntegrityError` (`none`
here) with nothing written — a reachable state, because the cache is
populated once at startup and never updated on writes.  A guild present
in the cache is `session.merge`d: the cached object's state is copied
onto the store row and committed as an UPDATE.  In every successful
case only the store row changes; the cache entry is not updated. -/
def guild_config_upsert (cs : ConfigState) (g : Nat)
    (mutate : GuildConfig → GuildConfig) : Option ConfigState :=
  match cs.cache g with
  | none =>
    match cs.store g with
    | some _ => none
    | none =>
      some { cs with store := cs.store.insert g (mutate (GuildConfig.mkNew g)) }
  | some cfg => some { cs with store := cs.store.insert g (mutate cfg) }

/-- `configure default_queue_size` (lines 73-84).  The argument is
`Optional[int] = None`; an omitted argument makes `queue_size <= 0`
raise `TypeError` (`none` result).  A non-positive size is rejected
with a reply and a `CommandError` before any write.  A raising commit
inside `guild_config` propagates before the confirmation is sent
(`none` result). -/
def default_queue_size_cmd (cs : ConfigState) (g : Nat)
    (queue_size : Option Int) : Option (ConfigState × List String) :=
  match queue_size with
  | none => none
  | some n =>
    if n ≤ 0 then
      some (cs, ["Default queue size must be greater than 0."])
    else
      match guild_config_upsert cs g
          (fun c => { c with default_queue_size := some n }) with
      | none => none
      | some cs2 => some (cs2, ["Settings updated."])

/-- The bot's permissions on the target channel
(`channel.permissions_for(ctx.me)`, line 89). -/
structure Permissions where
  send_messages : Bool
  read_messages : Bool
deriving DecidableEq, Repr

/-- `configure queue_channel` (lines 86-98).  The guard is transcribed
exactly as written in the source:
`not permissions.send_messages and permissions.read_messages`, which by
Python precedence parses as `(not send_messages) and read_messages`.
The rejection reply is the literal source string (the `f` prefix is
missing in the source, so the placeholder is sent verbatim).  A raising
commit inside `guild_config` propagates before the confirmation is sent
(`none` result). -/
def queue_channel_cmd (cs : ConfigState) (g : Nat) (chan : Nat)
    (perms : Permissions) : Option (ConfigState × List String) :=
  if !perms.send_messages && perms.read_messages then
    some (cs, ["Bot does not have permissions for: \x7bchannel.mention\x7d"])
  else
    match guild_config_upsert cs g
        (fun c => { c with queue_channel := some chan }) with
    | none => none
    | some cs2 => some (cs2, ["Settings updated."])

/-! Concrete sample states, used to exercise the theorems below on
closed inputs. -/

/-- Sample configuration row: guild 1 listens on channel 5, no host
role, default queue size 2. -/
def cfgW : GuildConfig :=
  { guild_id := 1, host_role_id := none, queue_channel := some 5,
    default_queue_size := some 2 }

/-- Sample configuration cache holding only guild 1. -/
def cregsW : RMap GuildConfig := RMap.empty.insert 1 cfgW

/-- Sample store/cache pair for the configuration commands. -/
def csW : ConfigState :=
  { store := RMap.empty.insert 1 cfgW, cache := RMap.empty.insert 1 cfgW }

/-- Sample state with guild 1's row in the store but not in the cache:
what a process reaches after configuring a guild that was unknown at
startup, since writes never update the cache. -/
def csMissW : ConfigState :=
  { store := RMap.empty.insert 1 cfgW, cache := RMap.empty }

/-- Sample state with guild 1 in neither store nor cache. -/
def csEmptyW : ConfigState := { store := RMap.empty, cache := RMap.empty }

/-- Sample invoking context: guild 1, channel 5, author 9 with no roles. -/
def ctxW : Ctx :=
  { guild_id := 1, channel_id := 5, author_id := 9, author_roles := [] }

/-- Sample lobby for guild 1: window [0, 100], member 7 queued until 60. -/
def stW : LobbyState :=
  { guild_id := 1, queue_size := 2, start_time := 0, end_time := 100,
    queue := [{ member_id := 7, end_time := 60 }] }

/-- Sample lobby registry holding only guild 1's lobby. -/
def lregsW : RMap LobbyState := RMap.empty.insert 1 stW

/-- Sample context for member 7, who is already queued in `stW`. -/
def ctxW7 : Ctx :=
  { guild_id := 1, channel_id := 5, author_id := 7, author_roles := [] }

/-! Registry lookup lemmas. -/

theorem RMap.insert_self (m : RMap α) (k : Nat) (v : α) :
    m.insert k v k = some v := by
  simp [RMap.insert]

theorem RMap.insert_ne (m : RMap α) (k k2 : Nat) (v : α) (h : k2 ≠ k) :
    m.insert k v k2 = m k2 := by
  simp [RMap.insert, h]

theorem RMap.erase_self (m : RMap α) (k : Nat) : m.erase k k = none := by
  simp [RMap.erase]

theorem RMap.erase_ne (m : RMap α) (k k2 : Nat) (h : k2 ≠ k) :
    m.erase k k2 = m k2 := by
  simp [RMap.erase, h]

/-- C10: `channel_check` and `host_check` look the invoking guild up in
the configuration cache without a guard, so they raise (result `none`)
exactly when the guild has no configuration record; whenever a record
exists, both checks return an answer — the failure branch is
unreachable under that precondition. -/
theorem C10_checks_raise_iff_no_config (cregs : RMap GuildConfig)
    (g ch : Nat) (roles : List Nat) :
    (GuildConfig.channel_check cregs g ch = none ↔ cregs g = none) ∧
    (GuildConfig.host_check cregs g roles = none ↔ cregs g = none) := by
  cases h : cregs g <;>
    simp [GuildConfig.channel_check, GuildConfig.host_check, h]

/-- C9: a guild whose configuration record exists but has
`queue_channel` unset fails `channel_check` on every invoking channel,
so `host`, `join`, `leave` and `query` are all dropped (no reply, lobby
registry untouched). -/
theorem C9_unset_queue_channel_gates_all_commands (cregs : RMap GuildConfig)
    (now : Nat) (ctx : Ctx) (lregs : RMap LobbyState) (cfg : GuildConfig)
    (hc : cregs ctx.guild_id = some cfg) (hq : cfg.queue_channel = none) :
    GuildConfig.channel_check cregs ctx.guild_id ctx.channel_id = some false ∧
    hostCmd cregs now ctx lregs = some (lregs, []) ∧
    joinCmd cregs now ctx lregs = some (lregs, []) ∧
    leaveCmd cregs now ctx lregs = some (lregs, []) ∧
    queryCmd cregs now ctx lregs = some (lregs, []) := by
  have hcc : GuildConfig.channel_check cregs ctx.guild_id ctx.channel_id
      = some false := by
    simp [GuildConfig.channel_check, hc, hq]
  exact ⟨hcc,
    by simp [hostCmd, hcc],
    by simp [joinCmd, hcc],
    by simp [leaveCmd, hcc],
    by simp [queryCmd, hcc]⟩

/-- Witness for C9 at a concrete state: guild 1 configured with
`queue_channel = None`. -/
theorem C9_unset_queue_channel_gates_all_commands_witness :
    GuildConfig.channel_check (RMap.empty.insert 1 (GuildConfig.mkNew 1))
        ctxW.guild_id ctxW.channel_id = some false ∧
    hostCmd (RMap.empty.insert 1 (GuildConfig.mkNew 1)) 50 ctxW lregsW
        = some (lregsW, []) ∧
    joinCmd (RMap.empty.insert 1 (GuildConfig.mkNew 1)) 50 ctxW lregsW
        = some (lregsW, []) ∧
    leaveCmd (RMap.empty.insert 1 (GuildConfig.mkNew 1)) 50 ctxW lregsW
        = some (lregsW, []) ∧
    queryCmd (RMap.empty.insert 1 (GuildConfig.mkNew 1)) 50 ctxW lregsW
        = some (lregsW, []) :=
  C9_unset_queue_channel_gates_all_commands
    (RMap.empty.insert 1 (GuildConfig.mkNew 1)) 50 ctxW lregsW
    (GuildConfig.mkNew 1) rfl rfl

/-- C5 (code bug): `configure queue_channel`'s guard is
`(not send_messages) and read_messages` (Python precedence), not
`not (send_messages and read_messages)`.  With the bot lacking BOTH
read and send permission on the channel, the guard is false, so the
handler mutates the store and replies "Settings updated." instead of
rejecting. -/
theorem C5_missing_both_permissions_still_mutates :
    queue_channel_cmd csW 1 42
        { send_messages := false, read_messages := false }
      = some ({ csW with store := csW.store.insert 1 { cfgW with queue_channel := some 42 } },
              ["Settings updated."]) ∧
    ({ csW with store := csW.store.insert 1 { cfgW with queue_channel := some 42 } } : ConfigState).store 1
      = some { cfgW with queue_channel := some 42 } ∧
    csW.store 1 = some cfgW ∧ cfgW.queue_channel = some 5 := by
  exact ⟨rfl, rfl, rfl, rfl⟩

/-- C6 counterexample: guild 1's row is in the store but the guild is
absent from the cache — the state a process reaches by configuring a
guild that was unknown at startup, since writes never update the
cache.  The positive argument 5 then does not set `default_queue_size`
and confirm: the fresh row's INSERT hits the duplicate primary key, so
`commit` raises `IntegrityError` and the command aborts with no reply
and no mutation. -/
theorem C6_duplicate_insert_counterexample :
    (0 : Int) < 5 ∧ default_queue_size_cmd csMissW 1 (some 5) = none :=
  ⟨by decide, rfl⟩

/-- C6 (amended): `configure default_queue_size` rejects every
non-positive argument with an error reply and no change to store or
cache.  A positive argument `n` is written through as
`default_queue_size = n` with a confirmation whenever the guild is in
the cache, or in neither cache nor store; but when the guild is absent
from the cache while its row already exists in the store, the
duplicate-key INSERT makes `commit` raise, and the command aborts with
no reply and no mutation. -/
theorem C6_default_queue_size_validation (cs : ConfigState) (g : Nat)
    (n : Int) :
    (n ≤ 0 → default_queue_size_cmd cs g (some n) =
        some (cs, ["Default queue size must be greater than 0."])) ∧
    (0 < n → ∀ cfg0 : GuildConfig, cs.cache g = some cfg0 →
      default_queue_size_cmd cs g (some n) =
        some ({ cs with store := cs.store.insert g { cfg0 with default_queue_size := some n } },
              ["Settings updated."])) ∧
    (0 < n → cs.cache g = none → cs.store g = none →
      default_queue_size_cmd cs g (some n) =
        some ({ cs with store := cs.store.insert g { GuildConfig.mkNew g with default_queue_size := some n } },
              ["Settings updated."])) ∧
    (0 < n → cs.cache g = none → ∀ cfg0 : GuildConfig,
      cs.store g = some cfg0 →
      default_queue_size_cmd cs g (some n) = none) := by
  refine ⟨?_, ?_, ?_, ?_⟩
  · intro h
    simp [default_queue_size_cmd, h]
  · intro h cfg0 hc
    have hn : ¬ n ≤ 0 := by omega
    simp [default_queue_size_cmd, hn, guild_config_upsert, hc]
  · intro h hc hs
    have hn : ¬ n ≤ 0 := by omega
    simp [default_queue_size_cmd, hn, guild_config_upsert, hc, hs]
  · intro h hc cfg0 hs
    have hn : ¬ n ≤ 0 := by omega
    simp [default_queue_size_cmd, hn, guild_config_upsert, hc, hs]

/-- Witness for C6: rejection at 0 leaves the sample state untouched;
acceptance at 5 writes through the merge branch (guild cached) and the
fresh-insert branch (guild nowhere); the stale-cache state aborts. -/
theorem C6_default_queue_size_validation_witness :
    (default_queue_size_cmd csW 1 (some 0) =
        some (csW, ["Default queue size must be greater than 0."])) ∧
    (default_queue_size_cmd csW 1 (some 5) =
        some ({ csW with store := csW.store.insert 1 { cfgW with default_queue_size := some 5 } },
              ["Settings updated."])) ∧
    (default_queue_size_cmd csEmptyW 1 (some 5) =
        some ({ csEmptyW with store := csEmptyW.store.insert 1 { GuildConfig.mkNew 1 with default_queue_size := some 5 } },
              ["Settings updated."])) ∧
    (default_queue_size_cmd csMissW 1 (some 5) = none) :=
  ⟨(C6_default_queue_size_validation csW 1 0).1 (by decide),
   (C6_default_queue_size_validation csW 1 5).2.1 (by decide) cfgW rfl,
   (C6_default_queue_size_validation csEmptyW 1 5).2.2.1 (by decide) rfl rfl,
   (C6_default_queue_size_validation csMissW 1 5).2.2.2 (by decide) rfl
     cfgW rfl⟩

/-- C3: lazy cleanup on every existence check.  When the current time is
strictly after the lobby's `end_time` the whole lobby is deleted and
reported non-existent — and a `host` issued right then succeeds, the
popped slot being refilled with a fresh 24-hour lobby.  Otherwise the
queue is filtered in place, keeping exactly the entries whose expiry is
still in the future, and the lobby survives (even with an empty queue). -/
theorem C3_lazy_cleanup_policy (now : Nat) (lregs : RMap LobbyState)
    (g : Nat) (st : LobbyState) (h : lregs g = some st) :
    (st.end_time < now →
      LobbyState.lobby_exists now lregs g = (false, lregs.erase g)) ∧
    (¬ st.end_time < now →
      LobbyState.lobby_exists now lregs g =
        (true, lregs.insert g
          { st with queue := st.queue.filter (fun qj => now < qj.end_time) })) ∧
    (∀ cregs ctx cfg, ctx.guild_id = g → st.end_time < now →
      cregs g = some cfg → cfg.queue_channel = some ctx.channel_id →
      GuildConfig.host_check cregs g ctx.author_roles = some true →
      ∃ newSt : LobbyState, hostCmd cregs now ctx lregs =
          some ((lregs.erase g).insert g newSt, ["Lobby created!"]) ∧
        newSt.start_time = now ∧ newSt.end_time = now + daySeconds ∧
        newSt.queue = []) := by
  refine ⟨?_, ?_, ?_⟩
  · intro hx
    simp [LobbyState.lobby_exists, h, LobbyState.clean_up, hx]
  · intro hx
    simp [LobbyState.lobby_exists, h, LobbyState.clean_up, hx]
  · intro cregs ctx cfg hg hx hc hqc hhost
    subst hg
    have hle : LobbyState.lobby_exists now lregs ctx.guild_id
        = (false, lregs.erase ctx.guild_id) := by
      simp [LobbyState.lobby_exists, h, LobbyState.clean_up, hx]
    refine ⟨{ guild_id := ctx.guild_id,
              queue_size := pyOrInt cfg.default_queue_size 8,
              start_time := now, end_time := now + daySeconds, queue := [] },
      ?_, rfl, rfl, rfl⟩
    simp [hostCmd, GuildConfig.channel_check, hc, hqc, hhost, hle,
      LobbyState.init]

/-- Witness for C3 on the sample lobby (window ends at 100): at time 200
it is popped and a fresh host succeeds; at time 50 it survives with its
queue filtered. -/
theorem C3_lazy_cleanup_policy_witness :
    (LobbyState.lobby_exists 200 lregsW 1 = (false, lregsW.erase 1)) ∧
    (LobbyState.lobby_exists 50 lregsW 1 =
      (true, lregsW.insert 1
        { stW with queue := stW.queue.filter (fun qj => 50 < qj.end_time) })) ∧
    (∃ newSt : LobbyState, hostCmd cregsW 200 ctxW lregsW =
        some ((lregsW.erase 1).insert 1 newSt, ["Lobby created!"]) ∧
      newSt.start_time = 200 ∧ newSt.end_time = 200 + daySeconds ∧
      newSt.queue = []) :=
  ⟨(C3_lazy_cleanup_policy 200 lregsW 1 stW rfl).1 (by decide),
   (C3_lazy_cleanup_policy 50 lregsW 1 stW rfl).2.1 (by decide),
   (C3_lazy_cleanup_policy 200 lregsW 1 stW rfl).2.2 cregsW ctxW cfgW rfl
     (by decide) rfl rfl (by decide)⟩

/-- C2: whenever a lobby for the guild is still alive after lazy
cleanup, a `host` attempt never reaches its handler: it sends no
message, the registry is at most the lazily-cleaned input registry
(never a registry with a new lobby), and the guild still holds its
unexpired lobby afterwards — so a second successful `host` for the same
guild is impossible while the first lobby is alive, and the registry
map keeps at most one lobby per guild. -/
theorem C2_host_noop_when_lobby_alive (cregs : RMap GuildConfig) (now : Nat)
    (ctx : Ctx) (lregs : RMap LobbyState)
    (out : RMap LobbyState × List String)
    (hex : (LobbyState.lobby_exists now lregs ctx.guild_id).1 = true)
    (hrun : hostCmd cregs now ctx lregs = some out) :
    out.2 = [] ∧
    (out.1 = lregs ∨
     out.1 = (LobbyState.lobby_exists now lregs ctx.guild_id).2) ∧
    ∃ st2 : LobbyState, out.1 ctx.guild_id = some st2 ∧
      ¬ st2.end_time < now := by
  obtain ⟨st, hst, hne⟩ :
      ∃ st, lregs ctx.guild_id = some st ∧ ¬ st.end_time < now := by
    unfold LobbyState.lobby_exists at hex
    cases h : lregs ctx.guild_id with
    | none => rw [h] at hex; simp at hex
    | some st =>
      rw [h] at hex
      by_cases hx : st.end_time < now
      · simp [LobbyState.clean_up, hx] at hex
      · exact ⟨st, rfl, hx⟩
  have hle : LobbyState.lobby_exists now lregs ctx.guild_id =
      (true, lregs.insert ctx.guild_id
        { st with queue := st.queue.filter (fun qj => now < qj.end_time) }) := by
    simp [LobbyState.lobby_exists, hst, LobbyState.clean_up, hne]
  unfold hostCmd at hrun
  cases hcc : GuildConfig.channel_check cregs ctx.guild_id ctx.channel_id with
  | none => rw [hcc] at hrun; simp at hrun
  | some b =>
    rw [hcc] at hrun
    cases b with
    | false =>
      have hout : (lregs, ([] : List String)) = out :=
        Option.some.inj hrun
      subst hout
      exact ⟨rfl, Or.inl rfl, st, hst, hne⟩
    | true =>
      cases hhc : GuildConfig.host_check cregs ctx.guild_id ctx.author_roles with
      | none => rw [hhc] at hrun; simp at hrun
      | some b2 =>
        rw [hhc] at hrun
        cases b2 with
        | false =>
          have hout : (lregs, ([] : List String)) = out :=
            Option.some.inj hrun
          subst hout
          exact ⟨rfl, Or.inl rfl, st, hst, hne⟩
        | true =>
          rw [hle] at hrun
          simp at hrun
          have hout : ((LobbyState.lobby_exists now lregs ctx.guild_id).2,
              ([] : List String)) = out := by
            rw [hle]; exact hrun
          subst hout
          refine ⟨rfl, Or.inr rfl, ?_⟩
          refine ⟨{ st with queue :=
              st.queue.filter (fun qj => now < qj.end_time) }, ?_, hne⟩
          rw [hle]
          exact RMap.insert_self _ _ _

/-- Witness for C2: at time 50 the sample lobby is alive, so `host`
returns the cleaned registry and no reply. -/
theorem C2_host_noop_when_lobby_alive_witness :
    (lregsW.insert 1 stW, ([] : List String)).2 = [] ∧
    ((lregsW.insert 1 stW, ([] : List String)).1 = lregsW ∨
     (lregsW.insert 1 stW, ([] : List String)).1
       = (LobbyState.lobby_exists 50 lregsW ctxW.guild_id).2) ∧
    (∃ st2 : LobbyState,
      (lregsW.insert 1 stW, ([] : List String)).1 ctxW.guild_id = some st2 ∧
      ¬ st2.end_time < 50) :=
  C2_host_noop_when_lobby_alive cregsW 50 ctxW lregsW
    (lregsW.insert 1 stW, []) (by decide) rfl

/-- C8: `leave` on an existing (post-cleanup) lobby removes exactly the
caller's queue entries: the new queue is the old one filtered on
`member_id != author`, so no caller entry survives, every other entry
is kept, order is preserved (the new queue is a sublist of the old),
and the reply is the same "no longer queued" message whether or not the
caller was queued. -/
theorem C8_leave_removes_all_entries (cregs : RMap GuildConfig) (now : Nat)
    (ctx : Ctx) (lregs : RMap LobbyState) (st : LobbyState)
    (hch : GuildConfig.channel_check cregs ctx.guild_id ctx.channel_id
      = some true)
    (hex : (LobbyState.lobby_exists now lregs ctx.guild_id).1 = true)
    (hst : (LobbyState.lobby_exists now lregs ctx.guild_id).2 ctx.guild_id
      = some st) :
    leaveCmd cregs now ctx lregs =
      some ((LobbyState.lobby_exists now lregs ctx.guild_id).2.insert
              ctx.guild_id
              { st with queue := st.queue.filter (fun qj => !(qj.member_id == ctx.author_id)) },
            ["You are no longer part of the queue!"]) ∧
    (∀ qj ∈ st.queue.filter (fun qj => !(qj.member_id == ctx.author_id)),
        qj.member_id ≠ ctx.author_id) ∧
    (∀ qj ∈ st.queue, qj.member_id ≠ ctx.author_id →
        qj ∈ st.queue.filter (fun qj => !(qj.member_id == ctx.author_id))) ∧
    (st.queue.filter (fun qj => !(qj.member_id == ctx.author_id))).Sublist
      st.queue := by
  refine ⟨?_, ?_, ?_, ?_⟩
  · simp [leaveCmd, hch, hex, hst]
  · intro qj hq
    simp [List.mem_filter] at hq
    exact hq.2
  · intro qj hq hne
    simp [List.mem_filter, hq, hne]
  · exact List.filter_sublist _

/-- Witness for C8: author 9 is not in the sample queue; the filter is a
no-op and the reply is still sent. -/
theorem C8_leave_removes_all_entries_witness :
    (leaveCmd cregsW 50 ctxW lregsW =
      some ((LobbyState.lobby_exists 50 lregsW ctxW.guild_id).2.insert
              ctxW.guild_id
              { stW with queue := stW.queue.filter (fun qj => !(qj.member_id == ctxW.author_id)) },
            ["You are no longer part of the queue!"])) ∧
    (∀ qj ∈ stW.queue.filter (fun qj => !(qj.member_id == ctxW.author_id)),
        qj.member_id ≠ ctxW.author_id) ∧
    (∀ qj ∈ stW.queue, qj.member_id ≠ ctxW.author_id →
        qj ∈ stW.queue.filter (fun qj => !(qj.member_id == ctxW.author_id))) ∧
    (stW.queue.filter (fun qj => !(qj.member_id == ctxW.author_id))).Sublist
      stW.queue :=
  C8_leave_removes_all_entries cregsW 50 ctxW lregsW stW (by decide)
    (by decide) rfl

/-- `next(...)` finds the first entry of member `m` when one exists:
with `q1` free of `m`, the generator over `q1 ++ qj :: q2` yields `qj`. -/
theorem find_mem_middle (q1 q2 : List QueueJoin) (qj : QueueJoin) (m : Nat)
    (hm : qj.member_id = m) (h1 : ∀ x ∈ q1, x.member_id ≠ m) :
    (q1 ++ qj :: q2).find? (fun x => x.member_id == m) = some qj := by
  induction q1 with
  | nil =>
    simp only [List.nil_append]
    exact List.find?_cons_of_pos _ (by simp [hm])
  | cons a as ih =>
    have ha : a.member_id ≠ m := h1 a (List.mem_cons_self a as)
    rw [List.cons_append, List.find?_cons_of_neg _ (by simp [ha])]
    exact ih (fun x hx => h1 x (List.mem_cons_of_mem a hx))

/-- Refreshing the first entry of member `m` rewrites exactly that
entry's `end_time` and leaves the rest of the queue untouched. -/
theorem refreshFirst_middle (q1 q2 : List QueueJoin) (qj : QueueJoin)
    (m t : Nat) (hm : qj.member_id = m) (h1 : ∀ x ∈ q1, x.member_id ≠ m) :
    refreshFirst (q1 ++ qj :: q2) m t
      = q1 ++ { qj with end_time := t } :: q2 := by
  induction q1 with
  | nil => simp [refreshFirst, hm]
  | cons a as ih =>
    have ha : a.member_id ≠ m := h1 a (List.mem_cons_self a as)
    simp only [List.cons_append, refreshFirst, ha, if_false, List.cons.injEq,
      true_and]
    exact ih (fun x hx => h1 x (List.mem_cons_of_mem a hx))

/-- C4: a `join` by a member already queued refreshes that member's
(first) entry to expire at now+2h, replies "already queued", leaves the
rest of the queue byte-for-byte unchanged (same length, same member ids
in the same order, so no duplicate is created), and never triggers the
queue-full announcement. -/
theorem C4_rejoin_refreshes_entry (cregs : RMap GuildConfig) (now : Nat)
    (ctx : Ctx) (lregs : RMap LobbyState) (st : LobbyState)
    (q1 q2 : List QueueJoin) (qj : QueueJoin)
    (hch : GuildConfig.channel_check cregs ctx.guild_id ctx.channel_id
      = some true)
    (hex : (LobbyState.lobby_exists now lregs ctx.guild_id).1 = true)
    (hst : (LobbyState.lobby_exists now lregs ctx.guild_id).2 ctx.guild_id
      = some st)
    (hq : st.queue = q1 ++ qj :: q2)
    (hm : qj.member_id = ctx.author_id)
    (h1 : ∀ x ∈ q1, x.member_id ≠ ctx.author_id) :
    joinCmd cregs now ctx lregs =
      some ((LobbyState.lobby_exists now lregs ctx.guild_id).2.insert
              ctx.guild_id
              { st with queue := q1 ++ { qj with end_time := now + twoHours } :: q2 },
            ["You are already part of the queue!"]) ∧
    (q1 ++ { qj with end_time := now + twoHours } :: q2).length
      = st.queue.length ∧
    (q1 ++ { qj with end_time := now + twoHours } :: q2).map
        QueueJoin.member_id
      = st.queue.map QueueJoin.member_id := by
  have hfind := find_mem_middle q1 q2 qj ctx.author_id hm h1
  have hrf := refreshFirst_middle q1 q2 qj ctx.author_id (now + twoHours) hm h1
  refine ⟨?_, ?_, ?_⟩
  · simp [joinCmd, hch, hex, hst, hq, hfind, hrf]
  · simp [hq]
  · simp [hq]

/-- Witness for C4: member 7 re-joins the sample lobby at time 50; the
queue stays `[member 7]` with expiry refreshed to 50+2h. -/
theorem C4_rejoin_refreshes_entry_witness :
    (joinCmd cregsW 50 ctxW7 lregsW =
      some ((LobbyState.lobby_exists 50 lregsW ctxW7.guild_id).2.insert
              ctxW7.guild_id
              { stW with queue := [] ++ QueueJoin.mk 7 (50 + twoHours) :: [] },
            ["You are already part of the queue!"])) ∧
    ([] ++ QueueJoin.mk 7 (50 + twoHours) :: []).length
      = stW.queue.length ∧
    ([] ++ QueueJoin.mk 7 (50 + twoHours) :: []).map
        QueueJoin.member_id
      = stW.queue.map QueueJoin.member_id :=
  C4_rejoin_refreshes_entry cregsW 50 ctxW7 lregsW stW []
    [] (QueueJoin.mk 7 60) (by decide) (by decide) rfl rfl rfl
    (fun x hx => absurd hx (by simp))

/-- C1: a `join` that brings the queue length up to `queue_size` first
replies "joined", then sends the full-lobby announcement — the
comma-separated mention of every queued member, old entries and the new
joiner alike, followed by "Full lobby. Start game!" — and pops the
lobby from the registry, so the guild maps to nothing and every later
existence check reports `false`. -/
theorem C1_full_queue_pops_lobby (cregs : RMap GuildConfig) (now : Nat)
    (ctx : Ctx) (lregs : RMap LobbyState) (st : LobbyState)
    (hch : GuildConfig.channel_check cregs ctx.guild_id ctx.channel_id
      = some true)
    (hex : (LobbyState.lobby_exists now lregs ctx.guild_id).1 = true)
    (hst : (LobbyState.lobby_exists now lregs ctx.guild_id).2 ctx.guild_id
      = some st)
    (hnew : ∀ x ∈ st.queue, x.member_id ≠ ctx.author_id)
    (hfull : (st.queue.length + 1 : Int) = st.queue_size) :
    joinCmd cregs now ctx lregs =
      some (((LobbyState.lobby_exists now lregs ctx.guild_id).2.insert
               ctx.guild_id
               { st with queue := st.queue ++ [QueueJoin.mk ctx.author_id (now + twoHours)] }).erase
              ctx.guild_id,
            ["You have successfully joined the queue!",
             mentionList (st.queue ++ [QueueJoin.mk ctx.author_id (now + twoHours)])
               ++ " Full lobby. Start game!"]) ∧
    (((LobbyState.lobby_exists now lregs ctx.guild_id).2.insert ctx.guild_id
        { st with queue := st.queue ++ [QueueJoin.mk ctx.author_id (now + twoHours)] }).erase
       ctx.guild_id) ctx.guild_id = none ∧
    ∀ t2 : Nat,
      (LobbyState.lobby_exists t2
        (((LobbyState.lobby_exists now lregs ctx.guild_id).2.insert
            ctx.guild_id
            { st with queue := st.queue ++ [QueueJoin.mk ctx.author_id (now + twoHours)] }).erase
          ctx.guild_id) ctx.guild_id).1 = false := by
  have hfindnone : st.queue.find? (fun x => x.member_id == ctx.author_id)
      = none :=
    List.find?_eq_none.mpr (fun x hx => by simp [hnew x hx])
  refine ⟨?_, RMap.erase_self _ _, ?_⟩
  · simp only [joinCmd, hch, hex, hst, hfindnone]
    simp [mentionList, hfull]
  · intro t2
    simp [LobbyState.lobby_exists, RMap.erase_self]

/-- Witness for C1: member 9 joins the sample lobby (size 2, member 7
queued) at time 50: both members are mentioned and the lobby is gone. -/
theorem C1_full_queue_pops_lobby_witness :
    (joinCmd cregsW 50 ctxW lregsW =
      some (((LobbyState.lobby_exists 50 lregsW ctxW.guild_id).2.insert
               ctxW.guild_id
               { stW with queue := stW.queue ++ [QueueJoin.mk ctxW.author_id (50 + twoHours)] }).erase
              ctxW.guild_id,
            ["You have successfully joined the queue!",
             mentionList (stW.queue ++ [QueueJoin.mk ctxW.author_id (50 + twoHours)])
               ++ " Full lobby. Start game!"])) ∧
    (((LobbyState.lobby_exists 50 lregsW ctxW.guild_id).2.insert ctxW.guild_id
        { stW with queue := stW.queue ++ [QueueJoin.mk ctxW.author_id (50 + twoHours)] }).erase
       ctxW.guild_id) ctxW.guild_id = none ∧
    ∀ t2 : Nat,
      (LobbyState.lobby_exists t2
        (((LobbyState.lobby_exists 50 lregsW ctxW.guild_id).2.insert
            ctxW.guild_id
            { stW with queue := stW.queue ++ [QueueJoin.mk ctxW.author_id (50 + twoHours)] }).erase
          ctxW.guild_id) ctxW.guild_id).1 = false :=
  C1_full_queue_pops_lobby cregsW 50 ctxW lregsW stW (by decide) (by decide)
    rfl (by decide) (by decide)

/-- First projection of a literal pair, for syntactic rewriting. -/
theorem pair_fst (a : α) (b : β) : ((a, b) : α × β).1 = a := rfl

/-- Second projection of a literal pair, for syntactic rewriting. -/
theorem pair_snd (a : α) (b : β) : ((a, b) : α × β).2 = b := rfl

/-- `lobby_exists` on a guild with no lobby: reports false, registry
untouched. -/
theorem lobby_exists_eq_of_none (now : Nat) (lregs : RMap LobbyState)
    (g : Nat) (h : lregs g = none) :
    LobbyState.lobby_exists now lregs g = (false, lregs) := by
  simp [LobbyState.lobby_exists, h]

/-- `lobby_exists` on an expired lobby: pops it and reports false. -/
theorem lobby_exists_eq_of_expired (now : Nat) (lregs : RMap LobbyState)
    (g : Nat) (st : LobbyState) (h : lregs g = some st)
    (hx : st.end_time < now) :
    LobbyState.lobby_exists now lregs g = (false, lregs.erase g) := by
  simp [LobbyState.lobby_exists, h, LobbyState.clean_up, hx]

/-- `lobby_exists` on a live lobby: reports true with the queue
filtered. -/
theorem lobby_exists_eq_of_alive (now : Nat) (lregs : RMap LobbyState)
    (g : Nat) (st : LobbyState) (h : lregs g = some st)
    (hx : ¬ st.end_time < now) :
    LobbyState.lobby_exists now lregs g =
      (true, lregs.insert g
        { st with queue := st.queue.filter (fun qj => now < qj.end_time) }) := by
  simp [LobbyState.lobby_exists, h, LobbyState.clean_up, hx]

/-- Lazy cleanup never touches `queue_size`: any lobby found in the
registry after a `lobby_exists` pass has the `queue_size` it had
before. -/
theorem lobby_exists_preserves_queue_size (now : Nat)
    (lregs : RMap LobbyState) (g g2 : Nat) (st st2 : LobbyState)
    (h : lregs g2 = some st)
    (h2 : (LobbyState.lobby_exists now lregs g).2 g2 = some st2) :
    st2.queue_size = st.queue_size := by
  cases hg : lregs g with
  | none =>
    rw [lobby_exists_eq_of_none now lregs g hg, pair_snd, h] at h2
    rw [Option.some.inj h2]
  | some s =>
    by_cases hx : s.end_time < now
    · rw [lobby_exists_eq_of_expired now lregs g s hg hx, pair_snd] at h2
      by_cases he : g2 = g
      · subst he; rw [RMap.erase_self] at h2; cases h2
      · rw [RMap.erase_ne _ _ _ he, h] at h2
        rw [Option.some.inj h2]
    · rw [lobby_exists_eq_of_alive now lregs g s hg hx, pair_snd] at h2
      by_cases he : g2 = g
      · subst he
        rw [RMap.insert_self] at h2
        rw [h] at hg
        obtain rfl : st = s := Option.some.inj hg
        simp [← Option.some.inj h2]
      · rw [RMap.insert_ne _ _ _ _ he, h] at h2
        rw [Option.some.inj h2]

/-- Inserting at `gc` a lobby whose `queue_size` equals that of the
post-cleanup lobby at `gc` preserves every lobby's `queue_size`. -/
theorem insert_clean_preserves_queue_size (now : Nat)
    (lregs : RMap LobbyState) (gc g2 : Nat) (st st0 X st2 : LobbyState)
    (h : lregs g2 = some st)
    (hst0 : (LobbyState.lobby_exists now lregs gc).2 gc = some st0)
    (h2 : ((LobbyState.lobby_exists now lregs gc).2.insert gc X) g2
      = some st2)
    (hX : X.queue_size = st0.queue_size) :
    st2.queue_size = st.queue_size := by
  by_cases he : g2 = gc
  · subst he
    rw [RMap.insert_self] at h2
    rw [← Option.some.inj h2, hX]
    exact lobby_exists_preserves_queue_size now lregs g2 g2 st st0 h hst0
  · rw [RMap.insert_ne _ _ _ _ he] at h2
    exact lobby_exists_preserves_queue_size now lregs gc g2 st st2 h h2

/-- C7: a lobby's `queue_size` is fixed at creation — the guild's
`default_queue_size` when that is set (to a positive value, the only
values the configure command admits), else 8 — and no later `join`,
`leave` or `query`, under any configuration cache whatsoever (so in
particular after any configuration change), gives a surviving lobby a
different `queue_size`.  The configuration commands themselves operate
on `ConfigState` only and never touch the lobby registry. -/
theorem C7_queue_size_fixed (cregs : RMap GuildConfig) (g now : Nat)
    (cfg : GuildConfig) (hc : cregs g = some cfg) :
    (cfg.default_queue_size = none →
      ∃ st, LobbyState.init cregs g now = some st ∧ st.queue_size = 8) ∧
    (∀ n : Int, cfg.default_queue_size = some n → 0 < n →
      ∃ st, LobbyState.init cregs g now = some st ∧ st.queue_size = n) ∧
    (∀ (cregs2 : RMap GuildConfig) (now2 : Nat) (ctx : Ctx)
       (lregs : RMap LobbyState) (out : RMap LobbyState × List String)
       (g2 : Nat) (st st2 : LobbyState),
      lregs g2 = some st →
      (joinCmd cregs2 now2 ctx lregs = some out ∨
       leaveCmd cregs2 now2 ctx lregs = some out ∨
       queryCmd cregs2 now2 ctx lregs = some out) →
      out.1 g2 = some st2 → st2.queue_size = st.queue_size) := by
  refine ⟨?_, ?_, ?_⟩
  · intro hnone
    refine ⟨{ guild_id := g, queue_size := pyOrInt cfg.default_queue_size 8,
              start_time := now, end_time := now + daySeconds, queue := [] },
      by simp [LobbyState.init, hc], ?_⟩
    simp [pyOrInt, hnone]
  · intro n hsome hpos
    refine ⟨{ guild_id := g, queue_size := pyOrInt cfg.default_queue_size 8,
              start_time := now, end_time := now + daySeconds, queue := [] },
      by simp [LobbyState.init, hc], ?_⟩
    simp only [pyOrInt, hsome]
    rw [if_neg (by omega)]
  · intro cregs2 now2 ctx lregs out g2 st st2 h hrun h2
    rcases hrun with hrun | hrun | hrun
    · simp only [joinCmd] at hrun
      split at hrun
      · cases hrun
      · obtain rfl := Option.some.inj hrun
        rw [pair_fst, h] at h2
        rw [Option.some.inj h2]
      · split at hrun
        · obtain rfl := Option.some.inj hrun
          rw [pair_fst] at h2
          exact lobby_exists_preserves_queue_size now2 lregs ctx.guild_id g2
            st st2 h h2
        · split at hrun
          · cases hrun
          · rename_i st0 hst0
            split at hrun
            · obtain rfl := Option.some.inj hrun
              rw [pair_fst] at h2
              exact insert_clean_preserves_queue_size now2 lregs ctx.guild_id
                g2 st st0 _ st2 h hst0 h2 rfl
            · split at hrun
              · obtain rfl := Option.some.inj hrun
                rw [pair_fst] at h2
                by_cases he : g2 = ctx.guild_id
                · subst he; rw [RMap.erase_self] at h2; cases h2
                · rw [RMap.erase_ne _ _ _ he] at h2
                  exact insert_clean_preserves_queue_size now2 lregs
                    ctx.guild_id g2 st st0 _ st2 h hst0 h2 rfl
              · obtain rfl := Option.some.inj hrun
                rw [pair_fst] at h2
                exact insert_clean_preserves_queue_size now2 lregs
                  ctx.guild_id g2 st st0 _ st2 h hst0 h2 rfl
    · simp only [leaveCmd] at hrun
      split at hrun
      · cases hrun
      · obtain rfl := Option.some.inj hrun
        rw [pair_fst, h] at h2
        rw [Option.some.inj h2]
      · split at hrun
        · obtain rfl := Option.some.inj hrun
          rw [pair_fst] at h2
          exact lobby_exists_preserves_queue_size now2 lregs ctx.guild_id g2
            st st2 h h2
        · split at hrun
          · cases hrun
          · rename_i st0 hst0
            obtain rfl := Option.some.inj hrun
            rw [pair_fst] at h2
            exact insert_clean_preserves_queue_size now2 lregs ctx.guild_id
              g2 st st0 _ st2 h hst0 h2 rfl
    · simp only [queryCmd] at hrun
      split at hrun
      · cases hrun
      · obtain rfl := Option.some.inj hrun
        rw [pair_fst, h] at h2
        rw [Option.some.inj h2]
      · split at hrun
        · obtain rfl := Option.some.inj hrun
          rw [pair_fst] at h2
          exact lobby_exists_preserves_queue_size now2 lregs ctx.guild_id g2
            st st2 h h2
        · split at hrun
          · cases hrun
          · obtain rfl := Option.some.inj hrun
            rw [pair_fst] at h2
            exact lobby_exists_preserves_queue_size now2 lregs ctx.guild_id
              g2 st st2 h h2

/-- Witness for C7: guild 1's default of 2 seeds the new lobby, and a
concrete `leave` run against the sample lobby preserves its
`queue_size`. -/
theorem C7_queue_size_fixed_witness :
    (∃ st, LobbyState.init cregsW 1 0 = some st ∧ st.queue_size = 2) ∧
    stW.queue_size = stW.queue_size :=
  ⟨(C7_queue_size_fixed cregsW 1 0 cfgW rfl).2.1 2 rfl (by decide),
   (C7_queue_size_fixed cregsW 1 0 cfgW rfl).2.2 cregsW 50 ctxW lregsW
     ((lregsW.insert 1 stW).insert 1 stW,
      ["You are no longer part of the queue!"])
     1 stW stW rfl (Or.inr (Or.inl rfl)) rfl⟩

end RavenBot
